import Mathlib

/-!
# velocity_marker: vector-to-marker conversion and publish loop

A shallow embedding of `src/velocity_marker.cpp`.

* C++ `double` (and the `float` colour channels) are idealised as an arbitrary
  linearly ordered field `α` together with a square-root function `sqrt : α → α`.
  Every definition is computable once `α` and `sqrt` are; theorems that need the
  square root to be exact assume `ExactSqrt sqrt`, which the reals satisfy.
* The node's own functions (`init_marker`, `vector_to_marker`, the two callbacks,
  the body of the publish loop) are transcribed statement by statement.
* The Eigen routines the node calls (`norm`, `normalized`, `dot`, `cross`,
  `Quaternion::FromTwoVectors`) are transcribed from the Eigen library.  The one
  numerical sub-routine that is not transcribed is the `JacobiSVD` that
  `FromTwoVectors` runs on nearly opposite vectors; it is a parameter `svdAxis`,
  and theorems that depend on it assume only the defining property of the last
  right singular vector (`SvdNullAxis`).
* `ros::Time::now()` is a parameter `now` of each call.
-/

namespace VelocityMarker

/-! ## Message types -/

/-- Message `geometry_msgs/Vector3`; also used for `Eigen::Vector3d` and
`geometry_msgs/Point`. -/
@[ext]
structure Vector3 (α : Type) where
  x : α
  y : α
  z : α
deriving DecidableEq

/-- Message `geometry_msgs/Quaternion`; also used for `Eigen::Quaterniond`. -/
@[ext]
structure Quaternion (α : Type) where
  x : α
  y : α
  z : α
  w : α
deriving DecidableEq

/-- Message `geometry_msgs/Twist`. -/
structure Twist (α : Type) where
  linear : Vector3 α
  angular : Vector3 α
deriving DecidableEq

/-- Type `ros::Time`. -/
structure Time where
  sec : Nat
  nsec : Nat
deriving DecidableEq

/-- Type `ros::Duration`; `ros::Duration()` is the zero duration, which a marker
consumer reads as "never expires". -/
structure Duration where
  sec : Int
  nsec : Int
deriving DecidableEq

/-- Message `std_msgs/Header`. -/
structure Header where
  seq : Nat
  stamp : Time
  frame_id : String
deriving DecidableEq

/-- Message `geometry_msgs/TwistStamped`. -/
structure TwistStamped (α : Type) where
  header : Header
  twist : Twist α
deriving DecidableEq

/-- Message `geometry_msgs/Pose`. -/
structure Pose (α : Type) where
  position : Vector3 α
  orientation : Quaternion α
deriving DecidableEq

/-- Message `std_msgs/ColorRGBA`. -/
structure ColorRGBA (α : Type) where
  r : α
  g : α
  b : α
  a : α
deriving DecidableEq

/-- Modelled from the spec: the shape constants of `visualization_msgs/Marker`
(the message declaration is not part of the sources); the node only ever writes
`ARROW`. -/
inductive MarkerType where
  | ARROW
  | CUBE
  | SPHERE
  | CYLINDER
deriving DecidableEq

/-- Modelled from the spec: the action constants of `visualization_msgs/Marker`
(the message declaration is not part of the sources); the node only ever writes
`ADD`. -/
inductive MarkerAction where
  | ADD
  | DELETE
  | DELETEALL
deriving DecidableEq

/-- The fields of `visualization_msgs/Marker` that the node reads or writes. -/
structure Marker (α : Type) where
  header : Header
  ns : String
  id : Int
  type : MarkerType
  action : MarkerAction
  pose : Pose α
  scale : Vector3 α
  color : ColorRGBA α
  lifetime : Duration
deriving DecidableEq

section Defs

variable {α : Type} [Zero α] [One α] [OfNat α 2] [OfScientific α] [Add α] [Sub α] [Mul α]
  [Div α] [Neg α] [Max α] [LT α] [DecidableRel (LT.lt : α → α → Prop)]

/-! ## Eigen routines used by the node -/

/-- Eigen `Vector3d::UnitX()`. -/
def UnitX : Vector3 α := ⟨1, 0, 0⟩

/-- Eigen `squaredNorm()`. -/
def squaredNorm (v : Vector3 α) : α := v.x * v.x + v.y * v.y + v.z * v.z

/-- Eigen `norm()`: the square root of `squaredNorm()`. -/
def norm (sqrt : α → α) (v : Vector3 α) : α := sqrt (squaredNorm v)

/-- Eigen `dot`. -/
def dot (a b : Vector3 α) : α := a.x * b.x + a.y * b.y + a.z * b.z

/-- Eigen `cross`. -/
def cross (a b : Vector3 α) : Vector3 α :=
  ⟨a.y * b.z - a.z * b.y, a.z * b.x - a.x * b.z, a.x * b.y - a.y * b.x⟩

/-- Eigen `normalized()`: divide by the norm when the squared norm is positive,
otherwise return the vector unchanged. -/
def normalized (sqrt : α → α) (n : Vector3 α) : Vector3 α :=
  let z := squaredNorm n
  if z > 0 then ⟨n.x / sqrt z, n.y / sqrt z, n.z / sqrt z⟩ else n

/-- Eigen `NumTraits<double>::dummy_precision()`. -/
def dummy_precision : α := 1e-12

/-- Eigen `Quaterniond::FromTwoVectors(a, b)` (`setFromTwoVectors`).  `svdAxis v0 v1`
stands for `JacobiSVD(m, ComputeFullV).matrixV().col(2)` of the 2×3 matrix with
rows `v0`, `v1`. -/
def FromTwoVectors (sqrt : α → α) (svdAxis : Vector3 α → Vector3 α → Vector3 α)
    (a b : Vector3 α) : Quaternion α :=
  let v0 := normalized sqrt a
  let v1 := normalized sqrt b
  let c := dot v1 v0
  if c < -1 + dummy_precision then
    let c := max c (-1)
    let axis := svdAxis v0 v1
    let w2 := (1 + c) * 0.5
    ⟨axis.x * sqrt (1 - w2), axis.y * sqrt (1 - w2), axis.z * sqrt (1 - w2), sqrt w2⟩
  else
    let axis := cross v0 v1
    let s := sqrt ((1 + c) * 2)
    let invs := 1 / s
    ⟨axis.x * invs, axis.y * invs, axis.z * invs, s * 0.5⟩

/-! ## The node's functions -/

/-- Function `init_marker` (lines 92-129). -/
def init_marker (marker : Marker α) (frame_id : String) (ns : String) : Marker α :=
  { marker with
    header := { marker.header with frame_id := frame_id }
    ns := ns
    id := 0
    type := MarkerType.ARROW
    action := MarkerAction.ADD
    pose := { position := ⟨0, 0, 0⟩, orientation := ⟨0.0, 0.0, 0.0, 1.0⟩ }
    scale := ⟨1.0, 0.1, 0.1⟩
    color := ⟨0.6, 0.6, 0.0, 1.0⟩
    lifetime := ⟨0, 0⟩ }

/-- Function `vector_to_marker` (lines 134-155); `now` is the value that
`ros::Time::now()` returns at line 154. -/
def vector_to_marker (sqrt : α → α) (svdAxis : Vector3 α → Vector3 α → Vector3 α)
    (now : Time) (marker : Marker α) (vec3 : Vector3 α) (scale : α) : Marker α :=
  let velocity_vector : Vector3 α := ⟨vec3.x, vec3.y, vec3.z⟩
  let marker : Marker α :=
    if norm sqrt velocity_vector > 1e-6 then
      let quat := FromTwoVectors sqrt svdAxis UnitX velocity_vector
      { marker with
        scale := ⟨norm sqrt velocity_vector * scale, 0.05, 0.05⟩
        pose := { marker.pose with orientation := ⟨quat.x, quat.y, quat.z, quat.w⟩ } }
    else
      { marker with scale := ⟨0, 0, 0⟩ }
  { marker with header := { marker.header with stamp := now } }

/-- Callback `sub_velocity_cb` (lines 84-87): the global `twist` becomes the message. -/
def sub_velocity_cb (msg : Twist α) (_twist : Twist α) : Twist α := msg

/-- Callback `sub_velocity_stamped_cb` (lines 76-79): the global `twist` becomes the
message's `twist` field. -/
def sub_velocity_stamped_cb (msg : TwistStamped α) (_twist : Twist α) : Twist α := msg.twist

/-! ## The publish loop of `main` -/

/-- The node's parameters (lines 30-41). -/
structure Config (α : Type) where
  base_frame : String
  twist_topic : String
  is_stamped : Bool
  velocity_scale : α
  anglular_velocity_scale : α
  publish_frequency : α

/-- A message waiting on the subscribed topic, in one of the two shapes. -/
inductive Inbound (α : Type) where
  | plain (msg : Twist α)
  | stamped (msg : TwistStamped α)

/-- The subscription of lines 47-53: `is_stamped` selects which callback is
registered; a message of the other shape is never handed to the node. -/
def deliver (is_stamped : Bool) (m : Inbound α) (twist : Twist α) : Twist α :=
  match is_stamped, m with
  | true, Inbound.stamped msg => sub_velocity_stamped_cb msg twist
  | false, Inbound.plain msg => sub_velocity_cb msg twist
  | _, _ => twist

/-- Call `ros::spinOnce()` (line 68): run the callback of every pending message,
oldest first. -/
def spinOnce (is_stamped : Bool) (pending : List (Inbound α)) (twist : Twist α) : Twist α :=
  pending.foldl (fun t m => deliver is_stamped m t) twist

/-- What the environment supplies during one iteration of the loop: the two clock
readings taken inside `vector_to_marker` and the messages that `spinOnce` finds. -/
structure Tick (α : Type) where
  now_vel : Time
  now_ang : Time
  pending : List (Inbound α)

/-- The variables the loop works on: the global `twist` and the two markers. -/
structure LoopState (α : Type) where
  twist : Twist α
  vel_marker : Marker α
  ang_vel_marker : Marker α

/-- The global `twist` at program start (line 21): a value-initialised message. -/
def twist_init : Twist α := ⟨⟨0, 0, 0⟩, ⟨0, 0, 0⟩⟩

/-- Lines 56-58: the state on entry to the loop; `m0` and `m1` are the two markers
as declared, before `init_marker` fills them in. -/
def setup (cfg : Config α) (m0 m1 : Marker α) : LoopState α :=
  { twist := twist_init
    vel_marker := init_marker m0 cfg.base_frame "velocity"
    ang_vel_marker := init_marker m1 cfg.base_frame "angular_velocity" }

/-- One iteration of the loop body (lines 63-68): the new state and the markers
published, in order. -/
def loop_body (sqrt : α → α) (svdAxis : Vector3 α → Vector3 α → Vector3 α)
    (cfg : Config α) (t : Tick α) (st : LoopState α) : LoopState α × List (Marker α) :=
  let vel_marker := vector_to_marker sqrt svdAxis t.now_vel st.vel_marker st.twist.linear
    cfg.velocity_scale
  let ang_vel_marker := vector_to_marker sqrt svdAxis t.now_ang st.ang_vel_marker
    st.twist.angular cfg.anglular_velocity_scale
  let twist := spinOnce cfg.is_stamped t.pending st.twist
  ({ twist := twist, vel_marker := vel_marker, ang_vel_marker := ang_vel_marker },
    [vel_marker, ang_vel_marker])

/-- The loop of lines 61-70 run for the iterations in `ticks`: the final state and
everything published, in order. -/
def run_loop (sqrt : α → α) (svdAxis : Vector3 α → Vector3 α → Vector3 α)
    (cfg : Config α) : List (Tick α) → LoopState α → LoopState α × List (Marker α)
  | [], st => (st, [])
  | t :: ts, st =>
    let r := loop_body sqrt svdAxis cfg t st
    let rest := run_loop sqrt svdAxis cfg ts r.1
    (rest.1, r.2 ++ rest.2)

/-! ## Auxiliary notions for stating the properties -/

/-- A value-initialised marker, as declared at line 56 before `init_marker` runs. -/
def blankMarker : Marker α :=
  { header := ⟨0, ⟨0, 0⟩, ""⟩, ns := "", id := 0, type := MarkerType.ARROW,
    action := MarkerAction.ADD, pose := ⟨⟨0, 0, 0⟩, ⟨0, 0, 0, 0⟩⟩, scale := ⟨0, 0, 0⟩,
    color := ⟨0, 0, 0, 0⟩, lifetime := ⟨0, 0⟩ }

/-- The command `cmd` as it travels on the topic the node subscribed to: wrapped with a
header when `is_stamped` is set, bare otherwise. -/
def wrap (is_stamped : Bool) (header : Header) (cmd : Twist α) : Inbound α :=
  if is_stamped then Inbound.stamped ⟨header, cmd⟩ else Inbound.plain cmd

/-- All messages drained by `spinOnce` during the given iterations, oldest first. -/
def drained : List (Tick α) → List (Inbound α)
  | [] => []
  | t :: ts => t.pending ++ drained ts

/-- Everything the node publishes during the iterations `ticks`, from program start. -/
def published (sqrt : α → α) (svdAxis : Vector3 α → Vector3 α → Vector3 α)
    (cfg : Config α) (m0 m1 : Marker α) (ticks : List (Tick α)) : List (Marker α) :=
  (run_loop sqrt svdAxis cfg ticks (setup cfg m0 m1)).2

/-- The loop variables at the start of iteration `n` (counted from 0). -/
def state_before (sqrt : α → α) (svdAxis : Vector3 α → Vector3 α → Vector3 α)
    (cfg : Config α) (m0 m1 : Marker α) (ticks : List (Tick α)) (n : Nat) : LoopState α :=
  (run_loop sqrt svdAxis cfg (ticks.take n) (setup cfg m0 m1)).1

/-- The marker fields that `init_marker` sets and `vector_to_marker` never writes hold
the values given at start-up. -/
def Fixed (frame_id ns : String) (m : Marker α) : Prop :=
  m.header.frame_id = frame_id ∧ m.ns = ns ∧ m.id = 0 ∧ m.type = MarkerType.ARROW ∧
  m.action = MarkerAction.ADD ∧ m.pose.position = ⟨0, 0, 0⟩ ∧
  m.color = ⟨0.6, 0.6, 0.0, 1.0⟩ ∧ m.lifetime = ⟨0, 0⟩

end Defs

/-! ## Auxiliary lemmas -/

/-- Draining two batches of messages one after the other. -/
theorem spinOnce_append {β : Type} (is_stamped : Bool) (p q : List (Inbound β)) (tw : Twist β) :
    spinOnce is_stamped (p ++ q) tw = spinOnce is_stamped q (spinOnce is_stamped p tw) := by
  simp [spinOnce, List.foldl_append]

/-- The messages drained over two runs of iterations. -/
theorem drained_append {β : Type} (p q : List (Tick β)) :
    drained (p ++ q) = drained p ++ drained q := by
  induction p with
  | nil => rfl
  | cons t ts ih => simp [drained, ih]

/-- Iterations that find no message drain nothing. -/
theorem drained_nil_of_empty {β : Type} (ticks : List (Tick β))
    (h : ∀ t ∈ ticks, t.pending = []) :
    drained ticks = [] := by
  induction ticks with
  | nil => rfl
  | cons t ts ih =>
    simp only [drained]
    rw [h t (List.mem_cons_self _ _), ih (fun t' ht' => h t' (List.mem_cons_of_mem _ ht'))]
    rfl

section Lemmas

variable {α : Type} [LinearOrderedField α]

/-- The fields `vector_to_marker` never writes. -/
theorem vector_to_marker_untouched (sqrt : α → α)
    (svdAxis : Vector3 α → Vector3 α → Vector3 α)
    (now : Time) (marker : Marker α) (v : Vector3 α) (s : α) :
    (vector_to_marker sqrt svdAxis now marker v s).header.frame_id = marker.header.frame_id ∧
    (vector_to_marker sqrt svdAxis now marker v s).ns = marker.ns ∧
    (vector_to_marker sqrt svdAxis now marker v s).id = marker.id ∧
    (vector_to_marker sqrt svdAxis now marker v s).type = marker.type ∧
    (vector_to_marker sqrt svdAxis now marker v s).action = marker.action ∧
    (vector_to_marker sqrt svdAxis now marker v s).pose.position = marker.pose.position ∧
    (vector_to_marker sqrt svdAxis now marker v s).color = marker.color ∧
    (vector_to_marker sqrt svdAxis now marker v s).lifetime = marker.lifetime := by
  by_cases h : norm sqrt (⟨v.x, v.y, v.z⟩ : Vector3 α) > 1e-6
  · simp only [vector_to_marker, if_pos h, and_self]
  · simp only [vector_to_marker, if_neg h, and_self]

/-- The start-up values survive a call of `vector_to_marker`. -/
theorem Fixed_vector_to_marker (sqrt : α → α) (svdAxis : Vector3 α → Vector3 α → Vector3 α)
    (now : Time) {f ns : String} {m : Marker α} (v : Vector3 α) (s : α) (h : Fixed f ns m) :
    Fixed f ns (vector_to_marker sqrt svdAxis now m v s) := by
  obtain ⟨a1, a2, a3, a4, a5, a6, a7, a8⟩ := vector_to_marker_untouched sqrt svdAxis now m v s
  obtain ⟨b1, b2, b3, b4, b5, b6, b7, b8⟩ := h
  exact ⟨a1.trans b1, a2.trans b2, a3.trans b3, a4.trans b4, a5.trans b5, a6.trans b6,
    a7.trans b7, a8.trans b8⟩

/-- The start-up values are those `init_marker` writes. -/
theorem Fixed_init_marker (m : Marker α) (f ns : String) : Fixed f ns (init_marker m f ns) :=
  ⟨rfl, rfl, rfl, rfl, rfl, rfl, rfl, rfl⟩

/-- The command held after some iterations is the result of all callbacks run so
far. -/
theorem run_loop_twist (sqrt : α → α) (svdAxis : Vector3 α → Vector3 α → Vector3 α)
    (cfg : Config α) (ticks : List (Tick α)) (st : LoopState α) :
    (run_loop sqrt svdAxis cfg ticks st).1.twist =
      spinOnce cfg.is_stamped (drained ticks) st.twist := by
  induction ticks generalizing st with
  | nil => rfl
  | cons t ts ih =>
    simp only [run_loop, drained, spinOnce_append]
    rw [ih]
    rfl

/-- Two markers are published per iteration. -/
theorem run_loop_length (sqrt : α → α) (svdAxis : Vector3 α → Vector3 α → Vector3 α)
    (cfg : Config α) (ticks : List (Tick α)) (st : LoopState α) :
    (run_loop sqrt svdAxis cfg ticks st).2.length = 2 * ticks.length := by
  induction ticks generalizing st with
  | nil => rfl
  | cons t ts ih =>
    simp only [run_loop, List.length_append, ih, List.length_cons]
    simp [loop_body]
    ring

/-- The two markers published in iteration `n`. -/
theorem run_loop_get (sqrt : α → α) (svdAxis : Vector3 α → Vector3 α → Vector3 α)
    (cfg : Config α) (ticks : List (Tick α)) (st : LoopState α) (n : Nat) (t : Tick α)
    (ht : ticks[n]? = some t) :
    (run_loop sqrt svdAxis cfg ticks st).2[2 * n]? =
      some (vector_to_marker sqrt svdAxis t.now_vel
        (run_loop sqrt svdAxis cfg (ticks.take n) st).1.vel_marker
        (run_loop sqrt svdAxis cfg (ticks.take n) st).1.twist.linear cfg.velocity_scale) ∧
    (run_loop sqrt svdAxis cfg ticks st).2[2 * n + 1]? =
      some (vector_to_marker sqrt svdAxis t.now_ang
        (run_loop sqrt svdAxis cfg (ticks.take n) st).1.ang_vel_marker
        (run_loop sqrt svdAxis cfg (ticks.take n) st).1.twist.angular
        cfg.anglular_velocity_scale) := by
  induction ticks generalizing st n with
  | nil => simp at ht
  | cons t0 ts ih =>
    cases n with
    | zero =>
      simp only [List.getElem?_cons_zero, Option.some.injEq] at ht
      subst ht
      simp [run_loop, loop_body]
    | succ k =>
      simp only [List.getElem?_cons_succ] at ht
      have := ih (loop_body sqrt svdAxis cfg t0 st).1 k ht
      have e1 : 2 * (k + 1) = (2 * k) + 2 := by ring
      have e2 : 2 * k + 2 + 1 = (2 * k + 1) + 2 := by ring
      simp only [run_loop, List.take_succ_cons]
      rw [e1, e2]
      have hl : (loop_body sqrt svdAxis cfg t0 st).2.length = 2 := rfl
      rw [List.getElem?_append_right (by omega), List.getElem?_append_right (by omega), hl]
      simpa using this

/-- The start-up values hold for both loop markers and for every published
marker. -/
theorem run_loop_fixed (sqrt : α → α) (svdAxis : Vector3 α → Vector3 α → Vector3 α)
    (cfg : Config α) (f : String) (ticks : List (Tick α)) (st : LoopState α)
    (h1 : Fixed f "velocity" st.vel_marker)
    (h2 : Fixed f "angular_velocity" st.ang_vel_marker) :
    Fixed f "velocity" (run_loop sqrt svdAxis cfg ticks st).1.vel_marker ∧
    Fixed f "angular_velocity" (run_loop sqrt svdAxis cfg ticks st).1.ang_vel_marker ∧
    ∀ m ∈ (run_loop sqrt svdAxis cfg ticks st).2,
      Fixed f "velocity" m ∨ Fixed f "angular_velocity" m := by
  induction ticks generalizing st with
  | nil => exact ⟨h1, h2, fun m hm => by simp [run_loop] at hm⟩
  | cons t ts ih =>
    have g1 := Fixed_vector_to_marker sqrt svdAxis t.now_vel st.twist.linear
      cfg.velocity_scale h1
    have g2 := Fixed_vector_to_marker sqrt svdAxis t.now_ang st.twist.angular
      cfg.anglular_velocity_scale h2
    obtain ⟨i1, i2, i3⟩ := ih (loop_body sqrt svdAxis cfg t st).1 g1 g2
    refine ⟨i1, i2, ?_⟩
    intro m hm
    simp only [run_loop, List.mem_append] at hm
    rcases hm with hm | hm
    · simp only [loop_body, List.mem_cons, List.mem_singleton, List.not_mem_nil,
        or_false] at hm
      rcases hm with rfl | rfl
      · exact Or.inl g1
      · exact Or.inr g2
    · exact i3 m hm

end Lemmas

/-! ## The properties -/

section Claims

variable {α : Type} [LinearOrderedField α]

/-- C5: receiving a command overwrites the previous state entirely.  For commands `A`
then `B`, through either callback (the stamped one discards the header), the shared
twist afterwards is `B`, whatever it and `A` were; when both are drained in one
iteration of the loop, under either subscription, the twist after that iteration is `B`
and the two markers of the next iteration are computed from `B.linear` and `B.angular`. -/
theorem command_overwrites_state (sqrt : α → α) (svdAxis : Vector3 α → Vector3 α → Vector3 α)
    (cfg : Config α) (st : LoopState α) (A B : Twist α) (hA hB : Header)
    (now_vel now_ang : Time) (next : Tick α) :
    sub_velocity_cb B (sub_velocity_cb A st.twist) = B ∧
    sub_velocity_stamped_cb ⟨hB, B⟩ (sub_velocity_stamped_cb ⟨hA, A⟩ st.twist) = B ∧
    (loop_body sqrt svdAxis cfg
      ⟨now_vel, now_ang, [wrap cfg.is_stamped hA A, wrap cfg.is_stamped hB B]⟩ st).1.twist
      = B ∧
    (loop_body sqrt svdAxis cfg next
      (loop_body sqrt svdAxis cfg
        ⟨now_vel, now_ang, [wrap cfg.is_stamped hA A, wrap cfg.is_stamped hB B]⟩ st).1).2 =
      [vector_to_marker sqrt svdAxis next.now_vel
          (vector_to_marker sqrt svdAxis now_vel st.vel_marker st.twist.linear
            cfg.velocity_scale)
          B.linear cfg.velocity_scale,
        vector_to_marker sqrt svdAxis next.now_ang
          (vector_to_marker sqrt svdAxis now_ang st.ang_vel_marker st.twist.angular
            cfg.anglular_velocity_scale)
          B.angular cfg.anglular_velocity_scale] := by
  have key : spinOnce cfg.is_stamped [wrap cfg.is_stamped hA A, wrap cfg.is_stamped hB B]
      st.twist = B := by
    cases h : cfg.is_stamped <;> rfl
  refine ⟨rfl, rfl, key, ?_⟩
  simp only [loop_body, key]

/-- C6: for every frame identifier `f` and namespace `n`, and whatever the marker held
before, `init_marker` yields a marker with `header.frame_id = f`, `ns = n`, `id = 0`,
type `ARROW`, action `ADD`, position `(0, 0, 0)`, the identity orientation `(0, 0, 0, 1)`,
scale `(1, 1/10, 1/10)`, colour `(r, g, b, a) = (6/10, 6/10, 0, 1)` and the zero
lifetime. -/
theorem init_marker_fields (marker : Marker α) (frame_id ns : String) :
    (init_marker marker frame_id ns).header.frame_id = frame_id ∧
    (init_marker marker frame_id ns).ns = ns ∧
    (init_marker marker frame_id ns).id = 0 ∧
    (init_marker marker frame_id ns).type = MarkerType.ARROW ∧
    (init_marker marker frame_id ns).action = MarkerAction.ADD ∧
    (init_marker marker frame_id ns).pose.position = ⟨0, 0, 0⟩ ∧
    (init_marker marker frame_id ns).pose.orientation = ⟨0, 0, 0, 1⟩ ∧
    (init_marker marker frame_id ns).scale = ⟨1, 1 / 10, 1 / 10⟩ ∧
    (init_marker marker frame_id ns).color = ⟨6 / 10, 6 / 10, 0, 1⟩ ∧
    (init_marker marker frame_id ns).lifetime = ⟨0, 0⟩ := by
  refine ⟨rfl, rfl, rfl, rfl, rfl, rfl, ?_, ?_, ?_, rfl⟩
  · simp [init_marker]; norm_num
  · simp [init_marker]; norm_num
  · simp [init_marker]; norm_num

/-- C9: each iteration of the publish loop publishes exactly two markers in a fixed
order, both computed from the shared twist as it is at the start of the iteration: first
the "velocity" marker from the linear vector and `velocity_scale`, then the
"angular_velocity" marker from the angular vector and `anglular_velocity_scale`.  The
messages pending in iteration `n` are processed after both publishes: the twist at the
start of iteration `n` is the result of the callbacks of iterations `0 .. n-1` only, the
twist at the start of iteration `n+1` is that one after the callbacks of iteration `n`,
and as long as no message has arrived the twist is the zero twist. -/
theorem publish_loop_order (sqrt : α → α) (svdAxis : Vector3 α → Vector3 α → Vector3 α)
    (cfg : Config α) (m0 m1 : Marker α) (ticks : List (Tick α)) :
    (published sqrt svdAxis cfg m0 m1 ticks).length = 2 * ticks.length ∧
    (state_before sqrt svdAxis cfg m0 m1 ticks 0).twist = ⟨⟨0, 0, 0⟩, ⟨0, 0, 0⟩⟩ ∧
    ∀ (n : Nat) (t : Tick α), ticks[n]? = some t →
      (published sqrt svdAxis cfg m0 m1 ticks)[2 * n]? =
        some (vector_to_marker sqrt svdAxis t.now_vel
          (state_before sqrt svdAxis cfg m0 m1 ticks n).vel_marker
          (state_before sqrt svdAxis cfg m0 m1 ticks n).twist.linear cfg.velocity_scale) ∧
      (published sqrt svdAxis cfg m0 m1 ticks)[2 * n + 1]? =
        some (vector_to_marker sqrt svdAxis t.now_ang
          (state_before sqrt svdAxis cfg m0 m1 ticks n).ang_vel_marker
          (state_before sqrt svdAxis cfg m0 m1 ticks n).twist.angular
          cfg.anglular_velocity_scale) ∧
      (state_before sqrt svdAxis cfg m0 m1 ticks n).vel_marker.ns = "velocity" ∧
      (state_before sqrt svdAxis cfg m0 m1 ticks n).ang_vel_marker.ns = "angular_velocity" ∧
      (state_before sqrt svdAxis cfg m0 m1 ticks n).twist =
        spinOnce cfg.is_stamped (drained (ticks.take n)) ⟨⟨0, 0, 0⟩, ⟨0, 0, 0⟩⟩ ∧
      (state_before sqrt svdAxis cfg m0 m1 ticks (n + 1)).twist =
        spinOnce cfg.is_stamped t.pending
          (state_before sqrt svdAxis cfg m0 m1 ticks n).twist ∧
      ((∀ t' ∈ ticks.take n, t'.pending = []) →
        (state_before sqrt svdAxis cfg m0 m1 ticks n).twist = ⟨⟨0, 0, 0⟩, ⟨0, 0, 0⟩⟩) := by
  refine ⟨run_loop_length sqrt svdAxis cfg ticks _, rfl, ?_⟩
  intro n t ht
  obtain ⟨g1, g2⟩ := run_loop_get sqrt svdAxis cfg ticks (setup cfg m0 m1) n t ht
  obtain ⟨f1, f2, -⟩ := run_loop_fixed sqrt svdAxis cfg cfg.base_frame (ticks.take n)
    (setup cfg m0 m1) (Fixed_init_marker m0 _ _) (Fixed_init_marker m1 _ _)
  have e := run_loop_twist sqrt svdAxis cfg (ticks.take n) (setup cfg m0 m1)
  have e' := run_loop_twist sqrt svdAxis cfg (ticks.take (n + 1)) (setup cfg m0 m1)
  have hd : drained (ticks.take (n + 1)) = drained (ticks.take n) ++ t.pending := by
    rw [List.take_succ, ht, drained_append]
    simp [drained]
  refine ⟨g1, g2, f1.2.1, f2.2.1, e, ?_, ?_⟩
  · unfold state_before
    rw [e', hd, spinOnce_append, e]
  · intro hempty
    unfold state_before
    rw [e, drained_nil_of_empty _ hempty]
    rfl

/-- C10: `vector_to_marker` changes only the marker's scale, orientation and time stamp:
`header.frame_id`, `ns`, `id`, `type`, `action`, `pose.position`, `color` and `lifetime`
are as before the call.  Consequently every marker published by the loop has the frame
id given to `init_marker`, one of the two namespaces, `id = 0`, type `ARROW`, action
`ADD`, zero position, and the colour and lifetime set at start-up. -/
theorem vector_to_marker_frame (sqrt : α → α) (svdAxis : Vector3 α → Vector3 α → Vector3 α)
    (now : Time) (marker : Marker α) (v : Vector3 α) (s : α)
    (cfg : Config α) (m0 m1 : Marker α) (ticks : List (Tick α)) :
    ((vector_to_marker sqrt svdAxis now marker v s).header.frame_id = marker.header.frame_id ∧
      (vector_to_marker sqrt svdAxis now marker v s).ns = marker.ns ∧
      (vector_to_marker sqrt svdAxis now marker v s).id = marker.id ∧
      (vector_to_marker sqrt svdAxis now marker v s).type = marker.type ∧
      (vector_to_marker sqrt svdAxis now marker v s).action = marker.action ∧
      (vector_to_marker sqrt svdAxis now marker v s).pose.position = marker.pose.position ∧
      (vector_to_marker sqrt svdAxis now marker v s).color = marker.color ∧
      (vector_to_marker sqrt svdAxis now marker v s).lifetime = marker.lifetime) ∧
    ∀ m ∈ published sqrt svdAxis cfg m0 m1 ticks,
      m.header.frame_id = cfg.base_frame ∧
      (m.ns = "velocity" ∨ m.ns = "angular_velocity") ∧
      m.id = 0 ∧ m.type = MarkerType.ARROW ∧ m.action = MarkerAction.ADD ∧
      m.pose.position = ⟨0, 0, 0⟩ ∧ m.color = ⟨0.6, 0.6, 0.0, 1.0⟩ ∧
      m.lifetime = ⟨0, 0⟩ := by
  refine ⟨vector_to_marker_untouched sqrt svdAxis now marker v s, ?_⟩
  intro m hm
  obtain ⟨-, -, h⟩ := run_loop_fixed sqrt svdAxis cfg cfg.base_frame ticks
    (setup cfg m0 m1) (Fixed_init_marker m0 _ _) (Fixed_init_marker m1 _ _)
  rcases h m hm with ⟨a1, a2, a3, a4, a5, a6, a7, a8⟩ | ⟨a1, a2, a3, a4, a5, a6, a7, a8⟩
  · exact ⟨a1, Or.inl a2, a3, a4, a5, a6, a7, a8⟩
  · exact ⟨a1, Or.inr a2, a3, a4, a5, a6, a7, a8⟩

end Claims

end VelocityMarker
